import Mathlib

/-!
Verification of the go-pilosa request-dispatch subsystem: a shallow
embedding of `src/cluster.go` (the round-robin endpoint registry) and of
the HTTP client in `src/unnamed/part_000` (request construction, endpoint
selection, response classification), with theorems about rotation order,
error classification, wire format and empty-cluster behaviour.
-/

/-- Modelled from the spec: the `URI` type (its source file is not under
`src/`; `cluster.go` and the client only store URIs and call
`GetNormalizedAddress`).  An endpoint is an immutable value of scheme,
host and port, normalized to `scheme://host:port`. -/
structure URI where
  scheme : String
  host : String
  port : Nat
deriving DecidableEq, Repr

/-- Modelled from the spec: the canonical string form `scheme://host:port`
used to build request URLs. -/
def URI.GetNormalizedAddress (u : URI) : String :=
  u.scheme ++ "://" ++ u.host ++ ":" ++ toString u.port

/-- Embedding of `Cluster` from `src/cluster.go`: an ordered list of hosts
plus the rotation cursor `nextIndex` (Go zero value 0 at creation). -/
structure Cluster where
  hosts : List URI
  nextIndex : Nat
deriving DecidableEq, Repr

/-- Embedding of `NewCluster`: a cluster with no addresses. -/
def NewCluster : Cluster :=
  { hosts := [], nextIndex := 0 }

/-- Embedding of `Cluster.AddHost`: appends the address to `hosts`. -/
def Cluster.AddHost (c : Cluster) (address : URI) : Cluster :=
  { c with hosts := c.hosts ++ [address] }

/-- Embedding of `NewClusterWithHost`. -/
def NewClusterWithHost (host : URI) : Cluster :=
  NewCluster.AddHost host

/-- Embedding of `Cluster.GetHost`: returns `nil` on an empty host list;
otherwise returns `hosts[nextIndex % len(hosts)]` and sets
`nextIndex = (nextIndex + 1) % len(hosts)`.  The returned pair is
(result, updated cluster), making the Go mutation explicit. -/
def Cluster.GetHost (c : Cluster) : Option URI × Cluster :=
  if h : c.hosts.length = 0 then (none, c)
  else
    (some (c.hosts.get ⟨c.nextIndex % c.hosts.length,
            Nat.mod_lt _ (Nat.pos_of_ne_zero h)⟩),
     { c with nextIndex := (c.nextIndex + 1) % c.hosts.length })

/-- Embedding of `Cluster.RemoveHost`: the Go body is an empty `TODO`
stub, so the cluster is returned unchanged. -/
def Cluster.RemoveHost (c : Cluster) (address : URI) : Cluster :=
  c

/-- Embedding of `Cluster.GetHosts`: returns a copy of the host list. -/
def Cluster.GetHosts (c : Cluster) : List URI :=
  c.hosts

/-- Results and final state of `n` successive `GetHost` calls. -/
def getHostCalls (c : Cluster) : Nat → List (Option URI) × Cluster
  | 0 => ([], c)
  | Nat.succ n =>
    let rc := c.GetHost
    let rest := getHostCalls rc.2 n
    (rc.1 :: rest.1, rest.2)

/-- Result of the k-th (1-indexed) `GetHost` call starting from `c`. -/
def kthGetHost (c : Cluster) (k : Nat) : Option URI :=
  ((getHostCalls c (k - 1)).2).GetHost.1

/-- A fresh registry populated with the given endpoints via `AddHost`. -/
def populateCluster (es : List URI) : Cluster :=
  es.foldl Cluster.AddHost NewCluster

theorem foldl_addHost (es : List URI) :
    ∀ c : Cluster, es.foldl Cluster.AddHost c =
      { hosts := c.hosts ++ es, nextIndex := c.nextIndex } := by
  induction es with
  | nil => intro c; simp
  | cons e es ih =>
    intro c
    simp only [List.foldl_cons, ih, Cluster.AddHost]
    simp

theorem populateCluster_eq (es : List URI) :
    populateCluster es = { hosts := es, nextIndex := 0 } := by
  simp [populateCluster, foldl_addHost, NewCluster]

theorem getHost_nonempty (c : Cluster) (h : c.hosts ≠ []) :
    c.GetHost =
      (some (c.hosts.get ⟨c.nextIndex % c.hosts.length,
              Nat.mod_lt _ (List.length_pos.mpr h)⟩),
       { c with nextIndex := (c.nextIndex + 1) % c.hosts.length }) := by
  have hlen : ¬ c.hosts.length = 0 := by
    simpa [List.length_eq_zero] using h
  simp [Cluster.GetHost, hlen]

theorem getHostCalls_hosts (c : Cluster) (n : Nat) :
    (getHostCalls c n).2.hosts = c.hosts := by
  induction n generalizing c with
  | zero => rfl
  | succ n ih =>
    simp only [getHostCalls]
    rw [ih]
    by_cases h : c.hosts.length = 0 <;> simp [Cluster.GetHost, h]

theorem getHostCalls_nextIndex (c : Cluster) (n : Nat)
    (h : c.hosts ≠ []) (hi : c.nextIndex < c.hosts.length) :
    (getHostCalls c n).2.nextIndex = (c.nextIndex + n) % c.hosts.length := by
  induction n generalizing c with
  | zero =>
    simpa [getHostCalls] using (Nat.mod_eq_of_lt hi).symm
  | succ n ih =>
    have hlen : 0 < c.hosts.length := List.length_pos.mpr h
    simp only [getHostCalls, getHost_nonempty c h]
    have h1 : ({ c with nextIndex := (c.nextIndex + 1) % c.hosts.length } :
        Cluster).hosts ≠ [] := h
    have hi1 : ({ c with nextIndex := (c.nextIndex + 1) % c.hosts.length } :
        Cluster).nextIndex <
        ({ c with nextIndex := (c.nextIndex + 1) % c.hosts.length } :
          Cluster).hosts.length := Nat.mod_lt _ hlen
    rw [ih ({ c with nextIndex := (c.nextIndex + 1) % c.hosts.length }) h1 hi1]
    simp only
    rw [Nat.mod_add_mod]
    have e : c.nextIndex + 1 + n = c.nextIndex + (n + 1) := by omega
    rw [e]

theorem getHostCalls_results (c : Cluster) (n : Nat)
    (h : c.hosts ≠ []) (hi : c.nextIndex < c.hosts.length) :
    (getHostCalls c n).1 =
      (List.range n).map (fun j =>
        some (c.hosts.get ⟨(c.nextIndex + j) % c.hosts.length,
                Nat.mod_lt _ (List.length_pos.mpr h)⟩)) := by
  induction n generalizing c with
  | zero => rfl
  | succ n ih =>
    have hlen : 0 < c.hosts.length := List.length_pos.mpr h
    simp only [getHostCalls, getHost_nonempty c h]
    have h1 : ({ c with nextIndex := (c.nextIndex + 1) % c.hosts.length } :
        Cluster).hosts ≠ [] := h
    have hi1 : ({ c with nextIndex := (c.nextIndex + 1) % c.hosts.length } :
        Cluster).nextIndex <
        ({ c with nextIndex := (c.nextIndex + 1) % c.hosts.length } :
          Cluster).hosts.length := Nat.mod_lt _ hlen
    rw [ih ({ c with nextIndex := (c.nextIndex + 1) % c.hosts.length }) h1 hi1]
    rw [List.range_succ_eq_map]
    simp only [List.map_cons, List.map_map]
    refine List.cons_eq_cons.mpr ⟨?_, ?_⟩
    · apply congrArg
      apply congrArg
      apply Fin.ext
      simp [Nat.mod_eq_of_lt hi]
    · apply List.map_congr_left
      intro j hj
      simp only [Function.comp]
      apply congrArg
      apply congrArg
      apply Fin.ext
      simp only
      rw [Nat.mod_add_mod]
      have e : c.nextIndex + 1 + j = c.nextIndex + (j + 1) := by omega
      rw [e]

theorem getCongr {l : List URI} {a b : Nat} (ha : a < l.length)
    (hb : b < l.length) (hab : a = b) : l.get ⟨a, ha⟩ = l.get ⟨b, hb⟩ := by
  subst hab; rfl

/-- Sample endpoint used by concrete witnesses. -/
def uriA : URI := { scheme := "http", host := "server1.example.com", port := 10101 }

/-- Second sample endpoint used by concrete witnesses. -/
def uriB : URI := { scheme := "http", host := "server2.example.com", port := 10101 }

/-- C1: on a fresh registry populated with endpoints `es` (nonempty), with no
mutation of the sequence between calls, the k-th (1-indexed) `GetHost` call
returns `es[(k-1) % es.length]`; in particular `2 * es.length` successive
calls return each endpoint exactly twice, in insertion order, repeating. -/
theorem getHost_roundRobin (es : List URI) (h : es ≠ []) (k : Nat) (hk : 1 ≤ k) :
    kthGetHost (populateCluster es) k =
      some (es.get ⟨(k - 1) % es.length, Nat.mod_lt _ (List.length_pos.mpr h)⟩)
  ∧ (getHostCalls (populateCluster es) (2 * es.length)).1 = (es ++ es).map some := by
  have hlen : 0 < es.length := List.length_pos.mpr h
  rw [kthGetHost, populateCluster_eq]
  have h0 : ({ hosts := es, nextIndex := 0 } : Cluster).hosts ≠ [] := h
  constructor
  · have hstate : (getHostCalls { hosts := es, nextIndex := 0 } (k - 1)).2 =
        { hosts := es, nextIndex := (k - 1) % es.length } := by
      have hh := getHostCalls_hosts { hosts := es, nextIndex := 0 } (k - 1)
      have hn := getHostCalls_nextIndex { hosts := es, nextIndex := 0 } (k - 1) h0 hlen
      cases hcs : (getHostCalls { hosts := es, nextIndex := 0 } (k - 1)).2 with
      | mk hs ni =>
        rw [hcs] at hh hn
        simp only at hh hn
        simp [hh, hn]
    rw [hstate, getHost_nonempty _ h]
    simp only
    exact congrArg some (getCongr _ _
      (Nat.mod_eq_of_lt (Nat.mod_lt _ hlen)))
  · rw [getHostCalls_results { hosts := es, nextIndex := 0 } (2 * es.length) h0 hlen]
    apply List.ext_getElem
    · simp [Nat.two_mul]
    · intro i h1 h2
      have hi2 : i < es.length + es.length := by
        simpa [Nat.two_mul] using h2
      simp only [List.getElem_map, List.getElem_range]
      by_cases hlt : i < es.length
      · rw [List.getElem_append_left hlt]
        exact congrArg some (getCongr _ _
          (by rw [Nat.zero_add]; exact Nat.mod_eq_of_lt hlt))
      · rw [List.getElem_append_right (Nat.le_of_not_lt hlt)]
        refine congrArg some (getCongr _ _ ?_)
        rw [Nat.zero_add, Nat.mod_eq_sub_mod (Nat.le_of_not_lt hlt)]
        exact Nat.mod_eq_of_lt (by omega)

/-- Witness for C1 at `es = [uriA, uriB]` and `k = 3`: the third call wraps
around to the first endpoint, and four calls walk the list twice. -/
theorem getHost_roundRobin_witness :
    kthGetHost (populateCluster [uriA, uriB]) 3 =
      some (([uriA, uriB] : List URI).get ⟨(3 - 1) % 2, by decide⟩)
  ∧ (getHostCalls (populateCluster [uriA, uriB]) (2 * ([uriA, uriB] : List URI).length)).1 =
      ([uriA, uriB] ++ [uriA, uriB]).map some := by
  have hr := getHost_roundRobin [uriA, uriB] (by decide) 3 (by decide)
  exact ⟨hr.1, hr.2⟩

/-- C8: `GetHost` on a registry whose host list is empty returns NONE and
leaves the cluster unchanged, for every cursor value; being a total Lean
function it never panics or indexes out of bounds. -/
theorem getHost_empty (c : Cluster) (h : c.hosts = []) : c.GetHost = (none, c) := by
  have hlen : c.hosts.length = 0 := by simp [h]
  simp [Cluster.GetHost, hlen]

/-- Witness for C8 at the empty cluster with a stale cursor value 5. -/
theorem getHost_empty_witness :
    (Cluster.mk [] 5).GetHost = (none, Cluster.mk [] 5) :=
  getHost_empty (Cluster.mk [] 5) rfl

/-- C2 (the code evaluated at the failing input): `RemoveHost` in the source
is an empty `TODO` stub, so removing the only host leaves it in the cluster
and the next `GetHost` still returns it instead of NONE. -/
theorem removeHost_is_noop :
    ((NewClusterWithHost uriA).RemoveHost uriA).hosts = [uriA]
  ∧ (((NewClusterWithHost uriA).RemoveHost uriA).GetHost).1 = some uriA := by
  exact ⟨rfl, rfl⟩

/-- C10: `AddHost` appends the new endpoint at the end of the sequence and
leaves the rotation cursor unchanged, and `RemoveHost` leaves both the
sequence and the cursor unchanged. -/
theorem addHost_preserves_cursor (c : Cluster) (a : URI) :
    (c.AddHost a).hosts = c.hosts ++ [a]
  ∧ (c.AddHost a).nextIndex = c.nextIndex
  ∧ c.RemoveHost a = c :=
  ⟨rfl, rfl, rfl⟩

/-- Go `error` values that the client can return.  `emptyCluster`,
`databaseExists` and `frameExists` model the distinguished sentinel errors
`ErrorEmptyCluster`, `ErrorDatabaseExists` and `ErrorFrameExists` (their
source file is not under `src/`; the spec lists them as EMPTY_CLUSTER and
the two ALREADY_EXISTS errors); `pilosaError` models `NewPilosaError(msg)`;
`transportError` models a raw error returned by `client.Do`; `decodeError`
models a raw error from response-body decoding. -/
inductive ClientError where
  | emptyCluster
  | databaseExists
  | frameExists
  | pilosaError (msg : String)
  | transportError (msg : String)
  | decodeError (msg : String)
deriving DecidableEq, Repr

/-- Abstraction of Go `http.Response` as consumed by `httpRequest`: the
numeric status code, the status line text, and the (already read) body. -/
structure HttpResponse where
  StatusCode : Nat
  Status : String
  Body : String
deriving DecidableEq, Repr

/-- Abstraction of the Go `http.Request` built by `httpRequest`: method,
full URL, the two headers the code sets, and the body bytes. -/
structure Request where
  method : String
  url : String
  contentType : String
  accept : String
  body : String
deriving DecidableEq, Repr

/-- Embedding of `Client`: its only field is the cluster. -/
structure Client where
  cluster : Cluster
deriving DecidableEq, Repr

/-- Embedding of `NewClientWithCluster`. -/
def NewClientWithCluster (cluster : Cluster) : Client :=
  { cluster := cluster }

/-- Embedding of `Client.httpRequest`.  The HTTP exchange (`client.Do`) is
passed in as `exchange`, returning either a transport-error message or a
response.  The result triple is (Go return value, updated client, the list
of requests actually handed to the transport) — the last component
instruments network I/O so that "zero network calls" is provable. -/
def Client.httpRequest (c : Client) (exchange : Request → Except String HttpResponse)
    (method : String) (path : String) (data : String) (needsResponse : Bool) :
    Except ClientError (Option String) × Client × List Request :=
  let ac := c.cluster.GetHost
  let c1 : Client := { cluster := ac.2 }
  match ac.1 with
  | none => (Except.error ClientError.emptyCluster, c1, [])
  | some addr =>
    let request : Request :=
      { method := method
        url := addr.GetNormalizedAddress ++ path
        contentType := "application/x-protobuf"
        accept := "application/x-protobuf"
        body := data }
    let result : Except ClientError (Option String) :=
      match exchange request with
      | Except.error e => Except.error (ClientError.transportError e)
      | Except.ok response =>
        if response.StatusCode < 200 ∨ 300 ≤ response.StatusCode then
          let msg := response.Body
          if msg = "database already exists\n" then
            Except.error ClientError.databaseExists
          else if msg = "frame already exists\n" then
            Except.error ClientError.frameExists
          else
            Except.error (ClientError.pilosaError
              ("Server error (" ++ toString response.StatusCode ++ ") "
                ++ response.Status ++ ": " ++ msg))
        else if needsResponse then
          Except.ok (some response.Body)
        else
          Except.ok none
    (result, c1, [request])

/-- Embedding of `DatabaseOptions`. -/
structure DatabaseOptions where
  columnLabel : String
deriving DecidableEq, Repr

/-- Embedding of `Database`: a name plus options. -/
structure Database where
  name : String
  options : DatabaseOptions
deriving DecidableEq, Repr

/-- Embedding of `FrameOptions`. -/
structure FrameOptions where
  rowLabel : String
deriving DecidableEq, Repr

/-- Embedding of `Frame`: a name, its database, and options.  (The Go field
is a pointer `*Database`; the value is embedded directly.) -/
structure Frame where
  name : String
  database : Database
  options : FrameOptions
deriving DecidableEq, Repr

/-- Projection of the Go idiom `_, err := ...`: keep only the error. -/
def errOnly (r : Except ClientError (Option String)) : Option ClientError :=
  match r with
  | Except.error e => some e
  | Except.ok _ => none

/-- Embedding of `Client.createOrDeleteDatabase`: formats the JSON body
`{"db": "<name>", "options": {"columnLabel": "<label>"}}` (braces written
with escapes) and issues `method /db` with no expected response body. -/
def Client.createOrDeleteDatabase (c : Client)
    (exchange : Request → Except String HttpResponse)
    (method : String) (database : Database) :
    Option ClientError × Client × List Request :=
  let data := "\x7b\"db\": \"" ++ database.name
    ++ "\", \"options\": \x7b\"columnLabel\": \"" ++ database.options.columnLabel
    ++ "\"\x7d\x7d"
  let r := c.httpRequest exchange method "/db" data false
  (errOnly r.1, r.2.1, r.2.2)

/-- Embedding of `Client.createOrDeleteFrame`: formats the JSON body
`{"db": "<name>", "frame": "<name>", "options": {"rowLabel": "<label>"}}`
and issues `method /frame` with no expected response body. -/
def Client.createOrDeleteFrame (c : Client)
    (exchange : Request → Except String HttpResponse)
    (method : String) (frame : Frame) :
    Option ClientError × Client × List Request :=
  let data := "\x7b\"db\": \"" ++ frame.database.name
    ++ "\", \"frame\": \"" ++ frame.name
    ++ "\", \"options\": \x7b\"rowLabel\": \"" ++ frame.options.rowLabel
    ++ "\"\x7d\x7d"
  let r := c.httpRequest exchange method "/frame" data false
  (errOnly r.1, r.2.1, r.2.2)

/-- Embedding of `Client.CreateDatabase`. -/
def Client.CreateDatabase (c : Client)
    (exchange : Request → Except String HttpResponse) (database : Database) :
    Option ClientError × Client × List Request :=
  c.createOrDeleteDatabase exchange "POST" database

/-- Embedding of `Client.CreateFrame`. -/
def Client.CreateFrame (c : Client)
    (exchange : Request → Except String HttpResponse) (frame : Frame) :
    Option ClientError × Client × List Request :=
  c.createOrDeleteFrame exchange "POST" frame

/-- Embedding of `Client.DeleteDatabase`. -/
def Client.DeleteDatabase (c : Client)
    (exchange : Request → Except String HttpResponse) (database : Database) :
    Option ClientError × Client × List Request :=
  c.createOrDeleteDatabase exchange "DELETE" database

/-- Embedding of `Client.DeleteFrame`. -/
def Client.DeleteFrame (c : Client)
    (exchange : Request → Except String HttpResponse) (frame : Frame) :
    Option ClientError × Client × List Request :=
  c.createOrDeleteFrame exchange "DELETE" frame

/-- Embedding of `Client.EnsureDatabaseExists`: calls `CreateDatabase` and
maps the sentinel `ErrorDatabaseExists` to success, propagating anything
else unchanged. -/
def Client.EnsureDatabaseExists (c : Client)
    (exchange : Request → Except String HttpResponse) (database : Database) :
    Option ClientError × Client × List Request :=
  let r := c.CreateDatabase exchange database
  if r.1 = some ClientError.databaseExists then (none, r.2.1, r.2.2) else r

/-- Embedding of `Client.EnsureFrameExists`: calls `CreateFrame` and maps
the sentinel `ErrorFrameExists` to success, propagating anything else
unchanged. -/
def Client.EnsureFrameExists (c : Client)
    (exchange : Request → Except String HttpResponse) (frame : Frame) :
    Option ClientError × Client × List Request :=
  let r := c.CreateFrame exchange frame
  if r.1 = some ClientError.frameExists then (none, r.2.1, r.2.2) else r

/-- Embedding of `QueryOptions`. -/
structure QueryOptions where
  GetProfiles : Bool
deriving DecidableEq, Repr

/-- Embedding of the `internal.QueryRequest` message fields set by
`makeRequestData`. -/
structure QueryRequest where
  DB : String
  Query : String
  Profiles : Bool
deriving DecidableEq, Repr

/-- Modelled from the spec: the protobuf marshalling of
`internal.QueryRequest` (package `internal` is not under `src/`).  The spec
only requires a binary envelope carrying the database name, the query text
and the profiles flag; it is modelled as an opaque length-prefixed
encoding of the three fields.  `Marshal` never fails, as the source
comment states. -/
def QueryRequest.Marshal (r : QueryRequest) : String :=
  "pb:" ++ toString r.DB.length ++ ":" ++ r.DB
    ++ ":" ++ toString r.Query.length ++ ":" ++ r.Query
    ++ ":" ++ (if r.Profiles then "1" else "0")

/-- Embedding of `makeRequestData`. -/
def makeRequestData (databaseName : String) (query : String)
    (options : QueryOptions) : String :=
  (QueryRequest.mk databaseName query options.GetProfiles).Marshal

/-- Embedding of `Client.QueryWithOptions`.  The decoding pipeline
(`internal.QueryResponse.Unmarshal` followed by
`newQueryResponseFromInternal`, neither under `src/`) is passed in as
`unmarshal`, producing a result of type `α` or an error message. -/
def Client.QueryWithOptions {α : Type} (unmarshal : String → Except String α)
    (c : Client) (exchange : Request → Except String HttpResponse)
    (options : QueryOptions) (database : Database) (query : String) :
    Except ClientError α × Client × List Request :=
  let data := makeRequestData database.name query options
  let r := c.httpRequest exchange "POST" "/query" data true
  match r.1 with
  | Except.error e => (Except.error e, r.2.1, r.2.2)
  | Except.ok buf =>
    match unmarshal (buf.getD "") with
    | Except.error e => (Except.error (ClientError.decodeError e), r.2.1, r.2.2)
    | Except.ok qr => (Except.ok qr, r.2.1, r.2.2)

/-- Embedding of `Client.Query`: `QueryWithOptions` with default options. -/
def Client.Query {α : Type} (unmarshal : String → Except String α)
    (c : Client) (exchange : Request → Except String HttpResponse)
    (database : Database) (query : String) :
    Except ClientError α × Client × List Request :=
  c.QueryWithOptions unmarshal exchange { GetProfiles := false } database query

/-- Embedding of `FrameInfo` (schema metadata). -/
structure FrameInfo where
  Name : String
deriving DecidableEq, Repr

/-- Embedding of `DBInfo` (schema metadata). -/
structure DBInfo where
  Name : String
  Frames : List FrameInfo
deriving DecidableEq, Repr

/-- Embedding of the `Schema` result type. -/
structure Schema where
  DBs : List DBInfo
deriving DecidableEq, Repr

/-- Embedding of `Client.Schema` (named `SchemaCall` because the Lean name
`Schema` is taken by the result structure): a GET to `/schema` with a nil
body, expecting a response; the JSON decoding of the body is passed in as
`decode`. -/
def Client.SchemaCall (c : Client)
    (exchange : Request → Except String HttpResponse)
    (decode : String → Except String Schema) :
    Except ClientError Schema × Client × List Request :=
  let r := c.httpRequest exchange "GET" "/schema" "" true
  match r.1 with
  | Except.error e => (Except.error e, r.2.1, r.2.2)
  | Except.ok buf =>
    match decode (buf.getD "") with
    | Except.error e => (Except.error (ClientError.decodeError e), r.2.1, r.2.2)
    | Except.ok s => (Except.ok s, r.2.1, r.2.2)

theorem httpRequest_emptyCluster (c : Client) (h : c.cluster.hosts = [])
    (exchange : Request → Except String HttpResponse)
    (method path data : String) (needsResponse : Bool) :
    c.httpRequest exchange method path data needsResponse =
      (Except.error ClientError.emptyCluster, c, []) := by
  unfold Client.httpRequest
  rw [getHost_empty _ h]

theorem httpRequest_trace (c : Client)
    (exchange : Request → Except String HttpResponse)
    (method path data : String) (needsResponse : Bool) (addr : URI)
    (h : (c.cluster.GetHost).1 = some addr) :
    (c.httpRequest exchange method path data needsResponse).2.2 =
      [{ method := method
         url := addr.GetNormalizedAddress ++ path
         contentType := "application/x-protobuf"
         accept := "application/x-protobuf"
         body := data }] := by
  unfold Client.httpRequest
  simp only [h]

theorem httpRequest_classify (c : Client) (resp : HttpResponse)
    (method path data : String) (needsResponse : Bool)
    (hne : c.cluster.hosts ≠ [])
    (hst : resp.StatusCode < 200 ∨ 300 ≤ resp.StatusCode) :
    (c.httpRequest (fun _ => Except.ok resp) method path data needsResponse).1 =
      (if resp.Body = "database already exists\n" then
        Except.error ClientError.databaseExists
      else if resp.Body = "frame already exists\n" then
        Except.error ClientError.frameExists
      else
        Except.error (ClientError.pilosaError
          ("Server error (" ++ toString resp.StatusCode ++ ") "
            ++ resp.Status ++ ": " ++ resp.Body))) := by
  unfold Client.httpRequest
  rw [getHost_nonempty _ hne]
  simp only [if_pos hst]

/-- Sample client over a two-host cluster, used by concrete witnesses. -/
def clientAB : Client := { cluster := populateCluster [uriA, uriB] }

/-- Sample database value used by concrete witnesses. -/
def dbW : Database := { name := "mydb", options := { columnLabel := "profileID" } }

/-- Sample frame value used by concrete witnesses. -/
def frW : Frame := { name := "myframe", database := dbW, options := { rowLabel := "id" } }

/-- Transport stub returning 200 with an empty body. -/
def exchOk : Request → Except String HttpResponse :=
  fun _ => Except.ok { StatusCode := 200, Status := "200 OK", Body := "" }

/-- A 409 response whose body is the literal database-duplicate string. -/
def resp409db : HttpResponse :=
  { StatusCode := 409, Status := "409 Conflict", Body := "database already exists\n" }

/-- A 409 response whose body is the literal frame-duplicate string. -/
def resp409fr : HttpResponse :=
  { StatusCode := 409, Status := "409 Conflict", Body := "frame already exists\n" }

/-- A 500 response with an unrecognized body. -/
def resp500 : HttpResponse :=
  { StatusCode := 500, Status := "500 Internal Server Error", Body := "boom\n" }

/-- C3: a database create whose exchange returns a non-2xx response with
body exactly `"database already exists\n"` yields the distinguished
`databaseExists` sentinel (not a generic server error); a non-2xx body
other than the two recognized duplicate strings yields the generic error
carrying numeric status, status text and body text. -/
theorem createDatabase_alreadyExists (c : Client) (db : Database)
    (resp : HttpResponse) (hne : c.cluster.hosts ≠ [])
    (hst : resp.StatusCode < 200 ∨ 300 ≤ resp.StatusCode) :
    (resp.Body = "database already exists\n" →
      (c.CreateDatabase (fun _ => Except.ok resp) db).1 =
        some ClientError.databaseExists)
  ∧ (resp.Body ≠ "database already exists\n" →
      resp.Body ≠ "frame already exists\n" →
      (c.CreateDatabase (fun _ => Except.ok resp) db).1 =
        some (ClientError.pilosaError
          ("Server error (" ++ toString resp.StatusCode ++ ") "
            ++ resp.Status ++ ": " ++ resp.Body))) := by
  have hcl := httpRequest_classify c resp "POST" "/db"
    ("\x7b\"db\": \"" ++ db.name ++ "\", \"options\": \x7b\"columnLabel\": \""
      ++ db.options.columnLabel ++ "\"\x7d\x7d") false hne hst
  constructor
  · intro hbody
    simp [Client.CreateDatabase, Client.createOrDeleteDatabase, hcl, hbody, errOnly]
  · intro h1 h2
    simp [Client.CreateDatabase, Client.createOrDeleteDatabase, hcl, h1, h2, errOnly]

/-- Witness for C3: a 409 with the database-duplicate body maps to the
sentinel, and a 500 with body `"boom\n"` maps to the generic error. -/
theorem createDatabase_alreadyExists_witness :
    (clientAB.CreateDatabase (fun _ => Except.ok resp409db) dbW).1 =
      some ClientError.databaseExists
  ∧ (clientAB.CreateDatabase (fun _ => Except.ok resp500) dbW).1 =
      some (ClientError.pilosaError
        ("Server error (" ++ toString resp500.StatusCode ++ ") "
          ++ resp500.Status ++ ": " ++ resp500.Body)) := by
  constructor
  · exact (createDatabase_alreadyExists clientAB dbW resp409db
      (by decide) (by decide)).1 rfl
  · exact (createDatabase_alreadyExists clientAB dbW resp500
      (by decide) (by decide)).2 (by decide) (by decide)

/-- C4: a frame create whose exchange returns a non-2xx response with body
exactly `"frame already exists\n"` yields the frame-specific `frameExists`
sentinel, which is a different error value from the database one — the
duplicate-frame outcome is never reported as the database ALREADY_EXISTS. -/
theorem createFrame_alreadyExists (c : Client) (fr : Frame)
    (resp : HttpResponse) (hne : c.cluster.hosts ≠ [])
    (hst : resp.StatusCode < 200 ∨ 300 ≤ resp.StatusCode)
    (hbody : resp.Body = "frame already exists\n") :
    (c.CreateFrame (fun _ => Except.ok resp) fr).1 = some ClientError.frameExists
  ∧ (c.CreateFrame (fun _ => Except.ok resp) fr).1 ≠
      some ClientError.databaseExists := by
  have hcl := httpRequest_classify c resp "POST" "/frame"
    ("\x7b\"db\": \"" ++ fr.database.name ++ "\", \"frame\": \"" ++ fr.name
      ++ "\", \"options\": \x7b\"rowLabel\": \"" ++ fr.options.rowLabel
      ++ "\"\x7d\x7d") false hne hst
  have hres : (c.CreateFrame (fun _ => Except.ok resp) fr).1 =
      some ClientError.frameExists := by
    simp [Client.CreateFrame, Client.createOrDeleteFrame, hcl, hbody, errOnly]
  exact ⟨hres, by simp [hres]⟩

/-- Witness for C4: a 409 with the frame-duplicate body on the frame path. -/
theorem createFrame_alreadyExists_witness :
    (clientAB.CreateFrame (fun _ => Except.ok resp409fr) frW).1 =
      some ClientError.frameExists
  ∧ (clientAB.CreateFrame (fun _ => Except.ok resp409fr) frW).1 ≠
      some ClientError.databaseExists :=
  createFrame_alreadyExists clientAB frW resp409fr (by decide) (by decide) rfl

/-- C5 (amended): every request handed to the transport carries Content-Type
and Accept headers both set to `application/x-protobuf`, regardless of the
body encoding in use (JSON administrative bodies included). -/
theorem request_headers_protobuf (c : Client)
    (exchange : Request → Except String HttpResponse)
    (method path data : String) (needsResponse : Bool) (r : Request)
    (hr : r ∈ (c.httpRequest exchange method path data needsResponse).2.2) :
    r.contentType = "application/x-protobuf"
  ∧ r.accept = "application/x-protobuf" := by
  unfold Client.httpRequest at hr
  cases hg : (c.cluster.GetHost).1 with
  | none =>
    simp only [hg] at hr
    simp at hr
  | some addr =>
    simp only [hg] at hr
    simp only [List.mem_singleton] at hr
    subst hr
    exact ⟨rfl, rfl⟩

/-- Witness for C5 (amended) at the concrete schema-fetch request. -/
theorem request_headers_protobuf_witness :
    Request.contentType
      { method := "GET", url := "http://server1.example.com:10101/schema"
        contentType := "application/x-protobuf"
        accept := "application/x-protobuf", body := "" } = "application/x-protobuf"
  ∧ Request.accept
      { method := "GET", url := "http://server1.example.com:10101/schema"
        contentType := "application/x-protobuf"
        accept := "application/x-protobuf", body := "" } = "application/x-protobuf" :=
  request_headers_protobuf clientAB exchOk "GET" "/schema" "" true _ (by decide)

/-- C5 counterexample: the create-database request carries a JSON object
body, yet its Content-Type and Accept headers are the binary
`application/x-protobuf` ones — identical to the headers of the
protobuf-encoded query request — so the headers do not match the body
encoding in use and cannot tell the server which codec the body uses. -/
theorem request_headers_counterexample :
    (clientAB.CreateDatabase exchOk dbW).2.2.map Request.body =
      ["\x7b\"db\": \"mydb\", \"options\": \x7b\"columnLabel\": \"profileID\"\x7d\x7d"]
  ∧ (clientAB.CreateDatabase exchOk dbW).2.2.map Request.contentType =
      ["application/x-protobuf"]
  ∧ (clientAB.CreateDatabase exchOk dbW).2.2.map Request.accept =
      ["application/x-protobuf"]
  ∧ (clientAB.CreateDatabase exchOk dbW).2.2.map Request.contentType =
      (clientAB.Query (fun s => Except.ok s) exchOk dbW "Bitmap(id=1)").2.2.map
        Request.contentType := by
  exact ⟨rfl, rfl, rfl, rfl⟩

/-- C6: with an empty registry, the query, administrative and schema
operations all fail with the EMPTY_CLUSTER error and hand zero requests to
the transport (the exchange function is never consulted). -/
theorem emptyCluster_no_io {α : Type} (c : Client) (h : c.cluster.hosts = [])
    (exchange : Request → Except String HttpResponse)
    (db : Database) (fr : Frame) (q : String) (options : QueryOptions)
    (unmarshal : String → Except String α)
    (decode : String → Except String Schema) :
    ((c.QueryWithOptions unmarshal exchange options db q).1 =
        Except.error ClientError.emptyCluster
      ∧ (c.QueryWithOptions unmarshal exchange options db q).2.2 = [])
  ∧ ((c.CreateDatabase exchange db).1 = some ClientError.emptyCluster
      ∧ (c.CreateDatabase exchange db).2.2 = [])
  ∧ ((c.DeleteDatabase exchange db).1 = some ClientError.emptyCluster
      ∧ (c.DeleteDatabase exchange db).2.2 = [])
  ∧ ((c.CreateFrame exchange fr).1 = some ClientError.emptyCluster
      ∧ (c.CreateFrame exchange fr).2.2 = [])
  ∧ ((c.DeleteFrame exchange fr).1 = some ClientError.emptyCluster
      ∧ (c.DeleteFrame exchange fr).2.2 = [])
  ∧ ((c.SchemaCall exchange decode).1 = Except.error ClientError.emptyCluster
      ∧ (c.SchemaCall exchange decode).2.2 = []) := by
  refine ⟨?_, ?_, ?_, ?_, ?_, ?_⟩ <;>
    simp [Client.QueryWithOptions, Client.CreateDatabase, Client.DeleteDatabase,
      Client.CreateFrame, Client.DeleteFrame, Client.SchemaCall,
      Client.createOrDeleteDatabase, Client.createOrDeleteFrame,
      httpRequest_emptyCluster c h, errOnly]

/-- Witness for C6 at the freshly created empty cluster. -/
theorem emptyCluster_no_io_witness :
    (({ cluster := NewCluster } : Client).CreateDatabase exchOk dbW).1 =
      some ClientError.emptyCluster
  ∧ (({ cluster := NewCluster } : Client).CreateDatabase exchOk dbW).2.2 = [] :=
  (emptyCluster_no_io { cluster := NewCluster } rfl exchOk dbW frW
    "Bitmap(id=1)" { GetProfiles := false } (fun s => Except.ok s)
    (fun _ => Except.error "decode")).2.1

/-- C7: the administrative create/delete requests are wire-exact — `method`
to `/db` with JSON body `{"db": "<name>", "options": {"columnLabel":
"<label>"}}` and to `/frame` with JSON body `{"db": "<name>", "frame":
"<name>", "options": {"rowLabel": "<label>"}}` — with the names and labels
taken from the caller-supplied value objects and the URL formed from the
selected endpoint's normalized address. -/
theorem adminRequests_wireExact (c : Client)
    (exchange : Request → Except String HttpResponse) (method : String)
    (db : Database) (fr : Frame) (addr : URI)
    (h : (c.cluster.GetHost).1 = some addr) :
    (c.createOrDeleteDatabase exchange method db).2.2 =
      [{ method := method
         url := addr.GetNormalizedAddress ++ "/db"
         contentType := "application/x-protobuf"
         accept := "application/x-protobuf"
         body := "\x7b\"db\": \"" ++ db.name
           ++ "\", \"options\": \x7b\"columnLabel\": \""
           ++ db.options.columnLabel ++ "\"\x7d\x7d" }]
  ∧ (c.createOrDeleteFrame exchange method fr).2.2 =
      [{ method := method
         url := addr.GetNormalizedAddress ++ "/frame"
         contentType := "application/x-protobuf"
         accept := "application/x-protobuf"
         body := "\x7b\"db\": \"" ++ fr.database.name
           ++ "\", \"frame\": \"" ++ fr.name
           ++ "\", \"options\": \x7b\"rowLabel\": \""
           ++ fr.options.rowLabel ++ "\"\x7d\x7d" }] := by
  constructor
  · simp [Client.createOrDeleteDatabase, httpRequest_trace c exchange method
      "/db" _ false addr h]
  · simp [Client.createOrDeleteFrame, httpRequest_trace c exchange method
      "/frame" _ false addr h]

/-- Witness for C7: the concrete POST requests built for `dbW` and `frW`
against the two-host sample cluster. -/
theorem adminRequests_wireExact_witness :
    (clientAB.createOrDeleteDatabase exchOk "POST" dbW).2.2 =
      [{ method := "POST"
         url := "http://server1.example.com:10101/db"
         contentType := "application/x-protobuf"
         accept := "application/x-protobuf"
         body := "\x7b\"db\": \"mydb\", \"options\": \x7b\"columnLabel\": \"profileID\"\x7d\x7d" }]
  ∧ (clientAB.createOrDeleteFrame exchOk "POST" frW).2.2 =
      [{ method := "POST"
         url := "http://server1.example.com:10101/frame"
         contentType := "application/x-protobuf"
         accept := "application/x-protobuf"
         body := "\x7b\"db\": \"mydb\", \"frame\": \"myframe\", \"options\": \x7b\"rowLabel\": \"id\"\x7d\x7d" }] := by
  have hw := adminRequests_wireExact clientAB exchOk "POST" dbW frW uriA (by decide)
  exact ⟨hw.1, hw.2⟩

/-- C9: the ensure-exists convenience is exactly create with its own
ALREADY_EXISTS absorbed — `EnsureDatabaseExists` succeeds iff
`CreateDatabase` succeeds or fails with `databaseExists`, every other error
is propagated unchanged; and symmetrically for `EnsureFrameExists` with
`CreateFrame` and `frameExists` (so each ensure absorbs only its own
resource's duplicate error). -/
theorem ensure_absorbs_alreadyExists (c : Client)
    (exchange : Request → Except String HttpResponse)
    (db : Database) (fr : Frame) :
    ((c.EnsureDatabaseExists exchange db).1 = none ↔
      (c.CreateDatabase exchange db).1 = none ∨
      (c.CreateDatabase exchange db).1 = some ClientError.databaseExists)
  ∧ ((c.CreateDatabase exchange db).1 ≠ some ClientError.databaseExists →
      (c.EnsureDatabaseExists exchange db).1 = (c.CreateDatabase exchange db).1)
  ∧ ((c.EnsureFrameExists exchange fr).1 = none ↔
      (c.CreateFrame exchange fr).1 = none ∨
      (c.CreateFrame exchange fr).1 = some ClientError.frameExists)
  ∧ ((c.CreateFrame exchange fr).1 ≠ some ClientError.frameExists →
      (c.EnsureFrameExists exchange fr).1 = (c.CreateFrame exchange fr).1) := by
  refine ⟨?_, ?_, ?_, ?_⟩
  · by_cases hd : (c.CreateDatabase exchange db).1 = some ClientError.databaseExists <;>
      simp [Client.EnsureDatabaseExists, hd]
  · intro hd
    simp [Client.EnsureDatabaseExists, hd]
  · by_cases hf : (c.CreateFrame exchange fr).1 = some ClientError.frameExists <;>
      simp [Client.EnsureFrameExists, hf]
  · intro hf
    simp [Client.EnsureFrameExists, hf]

/-- Witness for C9: on a 200 exchange both ensure operations coincide with
the underlying create, and (first conjunct) ensure succeeds. -/
theorem ensure_absorbs_alreadyExists_witness :
    (clientAB.EnsureDatabaseExists exchOk dbW).1 = (clientAB.CreateDatabase exchOk dbW).1
  ∧ (clientAB.EnsureFrameExists exchOk frW).1 = (clientAB.CreateFrame exchOk frW).1 := by
  have h9 := ensure_absorbs_alreadyExists clientAB exchOk dbW frW
  exact ⟨h9.2.1 (by decide), h9.2.2.2 (by decide)⟩
